import Mathlib

/-!
Verification of the budget-calculator projection engine.

The JavaScript source is embedded shallowly over `ℚ`:
`Math.floor` becomes `Int.floor`, `Math.round x` becomes `⌊x + 1/2⌋`
(JavaScript rounds half-way cases up), and `x.toFixed(0)` followed by
`parseFloat` becomes `⌊x + 1/2⌋` as well (ties pick the larger integer).
Configuration tables are passed explicitly; the numeric tables used for
concrete runs are the minimal fallback configuration built in
`calculator-config.loader.ts`.
-/

/-- JavaScript `Math.round`: round half up. -/
def jsRound (x : ℚ) : ℤ := ⌊x + 1/2⌋

/-- JavaScript `parseFloat(x.toFixed(0))`: round to the nearest integer,
ties picking the larger integer. -/
def jsToFixed0 (x : ℚ) : ℤ := ⌊x + 1/2⌋

/-- Pay-scale slice of the configuration (`payScale` in the config). -/
structure PayScale where
  stepThresholds : ℕ → ℚ
  stepRates : ℕ → ℚ
  annualRaiseRate : ℚ

/-- ACA slice of the configuration (`governmentRates.aca`). -/
structure ACAConfig where
  federalPovertyLevel : ℚ
  benchmarkPremiumMonthly : ℚ
  rate150 : ℚ
  rate200 : ℚ
  rate250 : ℚ
  rate300 : ℚ
  minimumPercent : ℚ
  maximumPercent : ℚ

/-- Unemployment slice of the configuration (`governmentRates.unemployment.utah2025`). -/
structure UnemploymentRules where
  minimumEarnings : ℚ
  quarterMultiplier : ℚ
  weeklyBenefitDeduction : ℚ
  weeksPerQuarter : ℚ
  maxWeeklyBenefit : ℚ
  durationMultiplier : ℚ
  minDurationWeeks : ℚ
  maxDurationWeeks : ℚ

/-- The loop body of `determineStep`: starting at `step`, with `fuel`
iterations remaining, return the current step as soon as
`rrchHours ≤ thresholds[step]`, else advance; when the loop ends, return 13. -/
def scanStep (thresholds : ℕ → ℚ) (rrchHours : ℚ) : ℕ → ℕ → ℕ
  | 0, _ => 13
  | fuel + 1, step =>
    if rrchHours ≤ thresholds step then step
    else scanStep thresholds rrchHours fuel (step + 1)

/-- `determineStep` from `calculations.js`: scan steps 1..13 in order and
return the first whose threshold is `≥ rrchHours`; 13 if none. -/
def determineStep (thresholds : ℕ → ℚ) (rrchHours : ℚ) : ℕ :=
  scanStep thresholds rrchHours 13 1

/-- `calculateHourlyRate` from `calculations.js`:
`stepRates[determineStep(rrchHours)] * (1 + annualRaiseRate)^yearsFromBase`. -/
def calculateHourlyRate (ps : PayScale) (rrchHours : ℚ) (yearsFromBase : ℕ) : ℚ :=
  ps.stepRates (determineStep ps.stepThresholds rrchHours) *
    (1 + ps.annualRaiseRate) ^ yearsFromBase

/-- `calculateACASubsidy` from `calculations.js`. -/
def calculateACASubsidy (aca : ACAConfig) (afterTaxIncome : ℚ) : ℚ :=
  let benchmarkPremiumAnnual := aca.benchmarkPremiumMonthly * 12
  let incomePercentFPL := (afterTaxIncome / aca.federalPovertyLevel) * 100
  if incomePercentFPL < aca.minimumPercent ∨ incomePercentFPL > aca.maximumPercent then 0
  else
    let applicablePercentage :=
      if incomePercentFPL ≤ 150 then aca.rate150
      else if incomePercentFPL ≤ 200 then aca.rate200
      else if incomePercentFPL ≤ 250 then aca.rate250
      else if incomePercentFPL ≤ 300 then aca.rate300
      else aca.rate300 - ((incomePercentFPL - 300) / 100) * (19/1000)
    max 0 (benchmarkPremiumAnnual - afterTaxIncome * applicablePercentage)

/-- `calculateUnemploymentBenefits` from `calculations.js`. -/
def calculateUnemploymentBenefits (rules : UnemploymentRules)
    (currentYearW2 priorYearW2 : ℚ) : ℚ :=
  let totalBasePeriodEarnings := currentYearW2 + priorYearW2
  let highestQuarterEarnings := max (currentYearW2 / 4) (priorYearW2 / 4)
  if totalBasePeriodEarnings < rules.minimumEarnings ∨
      totalBasePeriodEarnings < highestQuarterEarnings * rules.quarterMultiplier then 0
  else
    let weeklyBenefit : ℚ :=
      min ((jsRound (highestQuarterEarnings / rules.weeksPerQuarter -
        rules.weeklyBenefitDeduction) : ℚ)) rules.maxWeeklyBenefit
    if weeklyBenefit ≤ 0 then 0
    else
      let durationWeeks : ℚ :=
        max rules.minDurationWeeks (min rules.maxDurationWeeks
          ((⌊totalBasePeriodEarnings * rules.durationMultiplier / weeklyBenefit⌋ : ℤ) : ℚ))
      weeklyBenefit * durationWeeks

/-- `calculatePTOPayout` from `calculations.js` (the non-error path;
the configured divisor and the hard-coded fallback divisor are both 30). -/
def calculatePTOPayout (hoursPerPTOHour : ℚ) (annualHours hourlyRate : ℚ) : ℚ :=
  ((⌊annualHours / hoursPerPTOHour⌋ : ℤ) : ℚ) * hourlyRate

/-- Step thresholds of the minimal fallback configuration in
`calculator-config.loader.ts`. -/
def minimalThresholds : ℕ → ℚ
  | 1 => 699 | 2 => 1399 | 3 => 2099 | 4 => 3499 | 5 => 4899
  | 6 => 6299 | 7 => 7699 | 8 => 9099 | 9 => 10499 | 10 => 11899
  | 11 => 13299 | 12 => 14699 | 13 => 99999
  | _ => 0

/-- ACA table of the minimal fallback configuration. -/
def minimalACA : ACAConfig :=
  { federalPovertyLevel := 15060
    benchmarkPremiumMonthly := 450
    rate150 := 285/10000
    rate200 := 570/10000
    rate250 := 855/10000
    rate300 := 1140/10000
    minimumPercent := 100
    maximumPercent := 400 }

/-- Utah 2025 unemployment rules of the minimal fallback configuration. -/
def utah2025 : UnemploymentRules :=
  { minimumEarnings := 5300
    quarterMultiplier := 3/2
    weeklyBenefitDeduction := 5
    weeksPerQuarter := 26
    maxWeeklyBenefit := 777
    durationMultiplier := 27/100
    minDurationWeeks := 10
    maxDurationWeeks := 26 }

/-- The form-data fields that `calculateProjection` reads
(after `getNumericValue` coercion; ages are kept as naturals since the
loop counts `age = currentAge … endAge`). -/
structure FormDataR where
  currentAge : ℕ
  endAge : ℕ
  startingCareerHours : ℚ
  annualHours : ℚ
  startingProfitSharing : ℚ
  profitSharingPercent : ℚ
  otherIncome : ℚ
  partnerIncome : ℚ
  taxRate : ℚ
  currentExpenses : ℚ
  expenseInflation : ℚ
  cashBalance : ℚ
  taxableBalance : ℚ
  retirementBalance : ℚ
  investmentReturn : ℚ
  cashReturn : ℚ
deriving DecidableEq

/-- The configuration slices `calculateProjection` consumes. -/
structure Config where
  payScale : PayScale
  aca : ACAConfig
  unemployment : UnemploymentRules
  hoursPerPTOHour : ℚ
  contributionRate : ℚ

/-- One yearly result row (the numeric values before display formatting;
the summary re-applies the `toFixed(0)` rounding via `jsToFixed0`). -/
structure Row where
  age : ℕ
  shortfall : ℚ
  cashBalance : ℚ
  taxableBalance : ℚ
  retirementBalance : ℚ
deriving DecidableEq

/-- The mutable loop state of `calculateProjection`. -/
structure PState where
  cash : ℚ
  taxable : ℚ
  retirement : ℚ
  cashDepleted : Bool
  taxableDepleted : Bool
  priorYearW2 : ℚ
  priorYearIncome : ℚ
deriving DecidableEq

/-- The income part of one loop iteration of `calculateProjection`
(everything before the liquidity waterfall), for year index
`y = age − currentAge`.  Returns
(shortfall, contribution401k, seasonalW2, afterTaxIncome). -/
def yearIncome (cfg : Config) (fd : FormDataR) (y : ℕ)
    (priorYearW2 priorYearIncome : ℚ) : ℚ × ℚ × ℚ × ℚ :=
  let rrchHours := fd.startingCareerHours + (y : ℚ) * fd.annualHours
  let hourlyRate := calculateHourlyRate cfg.payScale rrchHours y
  let seasonalW2 := hourlyRate * fd.annualHours
  let ptoPayout := calculatePTOPayout cfg.hoursPerPTOHour fd.annualHours hourlyRate
  let unemploymentBenefits := calculateUnemploymentBenefits cfg.unemployment seasonalW2 priorYearW2
  let profitShare :=
    if y = 0 then fd.startingProfitSharing
    else priorYearW2 * (fd.profitSharingPercent / 100)
  let contribution401k := profitShare * cfg.contributionRate
  let totalWorkIncome := seasonalW2 + profitShare + ptoPayout
  let totalGrossIncome := totalWorkIncome + fd.otherIncome + unemploymentBenefits
  let afterTaxIncome := totalGrossIncome * (1 - fd.taxRate / 100)
  let acaTaxRefund := if y = 0 then 0 else calculateACASubsidy cfg.aca priorYearIncome
  let partnerAnnualIncome := fd.partnerIncome * 12
  let totalHouseholdIncome := afterTaxIncome + partnerAnnualIncome + acaTaxRefund
  let annualExpenses := fd.currentExpenses * (1 + fd.expenseInflation / 100) ^ y
  let shortfall := annualExpenses - totalHouseholdIncome
  (shortfall, contribution401k, seasonalW2, afterTaxIncome)

/-- The liquidity-waterfall block of one loop iteration of
`calculateProjection`: the three `if` blocks updating cash, taxable and
retirement, in source order (the taxable block reads the cash-depletion
flag already updated by the cash block of the same iteration). -/
def liquidityStep (cashReturn investmentReturn shortfall contribution401k : ℚ)
    (s : PState) : PState :=
  let cashStep : ℚ × Bool :=
    if s.cashDepleted then (s.cash, s.cashDepleted)
    else
      let grown := s.cash * (1 + cashReturn / 100)
      if 0 < shortfall then
        if shortfall ≤ grown then (grown - shortfall, s.cashDepleted)
        else (0, true)
      else (grown + |shortfall|, s.cashDepleted)
  let cash1 := cashStep.1
  let cashDep1 := cashStep.2
  let taxStep : ℚ × Bool :=
    if cashDep1 ∧ ¬s.taxableDepleted then
      let grown := s.taxable * (1 + investmentReturn / 100)
      if 0 < shortfall then
        if shortfall ≤ grown then (grown - shortfall, s.taxableDepleted)
        else (0, true)
      else (grown, s.taxableDepleted)
    else if ¬cashDep1 then
      (s.taxable * (1 + investmentReturn / 100), s.taxableDepleted)
    else (s.taxable, s.taxableDepleted)
  { cash := cash1
    taxable := taxStep.1
    retirement := s.retirement * (1 + investmentReturn / 100) + contribution401k
    cashDepleted := cashDep1
    taxableDepleted := taxStep.2
    priorYearW2 := s.priorYearW2
    priorYearIncome := s.priorYearIncome }

/-- One full iteration of the projection loop: income, waterfall, row,
and updating next year's lagged values. -/
def projStep (cfg : Config) (fd : FormDataR) (y : ℕ) (s : PState) : PState × Row :=
  let inc := yearIncome cfg fd y s.priorYearW2 s.priorYearIncome
  let shortfall := inc.1
  let contribution401k := inc.2.1
  let seasonalW2 := inc.2.2.1
  let afterTaxIncome := inc.2.2.2
  let s1 := liquidityStep fd.cashReturn fd.investmentReturn shortfall contribution401k s
  let s2 := { s1 with priorYearW2 := seasonalW2, priorYearIncome := afterTaxIncome }
  (s2, { age := fd.currentAge + y
         shortfall := shortfall
         cashBalance := s1.cash
         taxableBalance := s1.taxable
         retirementBalance := s1.retirement })

/-- Run `n` remaining iterations of the loop starting at year index `y`. -/
def projectFrom (cfg : Config) (fd : FormDataR) : ℕ → ℕ → PState → List Row
  | _, 0, _ => []
  | y, n + 1, s =>
    let step := projStep cfg fd y s
    step.2 :: projectFrom cfg fd (y + 1) n step.1

/-- The initial loop state of `calculateProjection`. -/
def initState (fd : FormDataR) : PState :=
  { cash := fd.cashBalance
    taxable := fd.taxableBalance
    retirement := fd.retirementBalance
    cashDepleted := false
    taxableDepleted := false
    priorYearW2 := 0
    priorYearIncome := 0 }

/-- `calculateProjection`: the full `for (age = currentAge; age <= endAge)`
loop, producing one row per simulated year. -/
def calculateProjection (cfg : Config) (fd : FormDataR) : List Row :=
  projectFrom cfg fd 0 (fd.endAge + 1 - fd.currentAge) (initState fd)

/-- The cash-depletion age reported by `generateSummary`:
the age of the first row whose displayed (`toFixed(0)`-rounded) cash
balance parses to `≤ 0`; `none` models the string `'Never'`.  An age of
`0` also yields `'Never'` because `results.find(...)?.age || 'Never'`
treats the number 0 as falsy. -/
def cashDepletedAge (results : List Row) : Option ℕ :=
  match results.find? (fun r => decide ((jsToFixed0 r.cashBalance : ℚ) ≤ 0)) with
  | some r => if r.age = 0 then none else some r.age
  | none => none

/-- The taxable-depletion age reported by `generateSummary`, analogous to
`cashDepletedAge`. -/
def taxableDepletedAge (results : List Row) : Option ℕ :=
  match results.find? (fun r => decide ((jsToFixed0 r.taxableBalance : ℚ) ≤ 0)) with
  | some r => if r.age = 0 then none else some r.age
  | none => none

/-- Pay scale of the minimal fallback configuration (all step rates 0,
raise rate 0). -/
def minimalPayScale : PayScale :=
  { stepThresholds := minimalThresholds
    stepRates := fun _ => 0
    annualRaiseRate := 0 }

/-- The minimal fallback configuration of `calculator-config.loader.ts`
as one `Config` record (PTO divisor 30, retirement contribution rate 0). -/
def minimalConfig : Config :=
  { payScale := minimalPayScale
    aca := minimalACA
    unemployment := utah2025
    hoursPerPTOHour := 30
    contributionRate := 0 }

/-- A form-data record with every numeric field 0 and the given ages,
to be overridden per scenario. -/
def zeroForm (a b : ℕ) : FormDataR :=
  { currentAge := a
    endAge := b
    startingCareerHours := 0
    annualHours := 0
    startingProfitSharing := 0
    profitSharingPercent := 0
    otherIncome := 0
    partnerIncome := 0
    taxRate := 0
    currentExpenses := 0
    expenseInflation := 0
    cashBalance := 0
    taxableBalance := 0
    retirementBalance := 0
    investmentReturn := 0
    cashReturn := 0 }

/-- Scenario for the cash→taxable transition year: one simulated year,
no income, expenses 1000, cash 500, taxable 2000, all rates 0. -/
def fdSpill : FormDataR :=
  { zeroForm 44 44 with
    currentExpenses := 1000
    cashBalance := 500
    taxableBalance := 2000 }

/-- Scenario for a cash balance that hits exactly 0 without tripping the
depletion flag, followed by a surplus year: two simulated years, other
income 10000, expenses 16000 deflating by 50%/year, cash 6000. -/
def fdRefill : FormDataR :=
  { zeroForm 44 45 with
    otherIncome := 10000
    currentExpenses := 16000
    expenseInflation := -50
    cashBalance := 6000 }

/-- The ACA subsidy as the specification words it (§4.2):
`pctFPL = 100 × income / federalPovertyLevel`; outside
`[minimumPercent, maximumPercent]` return 0; tiers ≤150/200/250/300; above
300 reduce rate[300] by `0.019 × ((pctFPL − 300)/100)`; subsidy
`max(0, benchmarkPremiumMonthly×12 − income×applicableRate)`.  Used to
compare against the implementation `calculateACASubsidy`. -/
def acaSubsidySpec (aca : ACAConfig) (income : ℚ) : ℚ :=
  let pctFPL := 100 * income / aca.federalPovertyLevel
  if pctFPL < aca.minimumPercent ∨ pctFPL > aca.maximumPercent then 0
  else
    let applicableRate :=
      if pctFPL ≤ 150 then aca.rate150
      else if pctFPL ≤ 200 then aca.rate200
      else if pctFPL ≤ 250 then aca.rate250
      else if pctFPL ≤ 300 then aca.rate300
      else aca.rate300 - (19/1000) * ((pctFPL - 300) / 100)
    max 0 (aca.benchmarkPremiumMonthly * 12 - income * applicableRate)

/-- Scenario for the summary rounding: one simulated year whose exact
ending cash is $0.25 (cash 1000.25, expenses 1000, no income, no returns). -/
def fdPenny : FormDataR :=
  { zeroForm 44 44 with
    currentExpenses := 1000
    cashBalance := 4001/4 }

/-- Scenario with a negative starting profit-sharing amount. -/
def fdNegPS : FormDataR :=
  { zeroForm 44 44 with
    startingProfitSharing := -100 }

/-- The minimal configuration with a 100% retirement contribution rate. -/
def cfgContrib : Config :=
  { minimalConfig with
    contributionRate := 1 }

example : determineStep minimalThresholds 699 = 1 := by decide
example : determineStep minimalThresholds 700 = 2 := by decide
example : determineStep minimalThresholds 100000 = 13 := by decide
example : calculatePTOPayout 30 800 (63/2) = 819 := by norm_num [calculatePTOPayout]
example : calculateACASubsidy minimalACA 60240 = 0 := by
  norm_num [calculateACASubsidy, minimalACA]
example : calculateUnemploymentBenefits utah2025 0 0 = 0 := by
  norm_num [calculateUnemploymentBenefits, utah2025]


lemma scanStep_first (th : ℕ → ℚ) (x : ℚ) :
    ∀ (fuel step k : ℕ), step ≤ k → k < step + fuel → x ≤ th k →
      (∀ j, j < k → step ≤ j → th j < x) → scanStep th x fuel step = k := by
  intro fuel
  induction fuel with
  | zero =>
    intro step k h1 h2 _ _
    omega
  | succ n ih =>
    intro step k h1 h2 hk hprev
    simp only [scanStep]
    by_cases hc : x ≤ th step
    · have hsk : step = k := by
        by_contra hne
        exact absurd hc (not_le.mpr (hprev step (by omega) le_rfl))
      subst hsk
      rw [if_pos hc]
    · rw [if_neg hc]
      have hne : step ≠ k := by
        rintro rfl; exact hc hk
      exact ih (step + 1) k (by omega) (by omega) hk
        (fun j hj hj2 => hprev j hj (by omega))

lemma scanStep_overflow (th : ℕ → ℚ) (x : ℚ) :
    ∀ (fuel step : ℕ), (∀ j, step ≤ j → j < step + fuel → th j < x) →
      scanStep th x fuel step = 13 := by
  intro fuel
  induction fuel with
  | zero => intro step _; rfl
  | succ n ih =>
    intro step hall
    simp only [scanStep]
    rw [if_neg (not_le.mpr (hall step le_rfl (by omega)))]
    exact ih (step + 1) (fun j h1 h2 => hall j (by omega) (by omega))

lemma determineStep_zero (th : ℕ → ℚ) (h : 0 ≤ th 1) : determineStep th 0 = 1 :=
  scanStep_first th 0 13 1 1 le_rfl (by omega) h
    (fun j hj hj2 => absurd hj (by omega))

/-- **C5**: `determineStep` scans steps 1..13 in ascending order and returns
the first step whose threshold is ≥ the hours (inclusive upper bound),
returning 13 when no threshold matches; on the configured thresholds
`[699, 1399, …, 14699, 99999]` it maps 699↦1, 700↦2, 1399↦2, 1400↦3 and
100000↦13. -/
theorem C5_determineStep :
    (∀ (th : ℕ → ℚ) (x : ℚ) (k : ℕ), 1 ≤ k → k ≤ 13 → x ≤ th k →
        (∀ j, j < k → 1 ≤ j → th j < x) → determineStep th x = k) ∧
    (∀ (th : ℕ → ℚ) (x : ℚ), (∀ j, 1 ≤ j → j ≤ 13 → th j < x) →
        determineStep th x = 13) ∧
    determineStep minimalThresholds 699 = 1 ∧
    determineStep minimalThresholds 700 = 2 ∧
    determineStep minimalThresholds 1399 = 2 ∧
    determineStep minimalThresholds 1400 = 3 ∧
    determineStep minimalThresholds 100000 = 13 := by
  refine ⟨?_, ?_, by decide, by decide, by decide, by decide, by decide⟩
  · intro th x k h1 h2 hk hprev
    exact scanStep_first th x 13 1 k h1 (by omega) hk (fun j hj hj2 => hprev j hj hj2)
  · intro th x hall
    exact scanStep_overflow th x 13 1 (fun j h1 h2 => hall j h1 (by omega))

/-- Witness for C5: 3000 hours fall in step 4 (first threshold ≥ 3000). -/
theorem C5_witness : determineStep minimalThresholds 3000 = 4 :=
  C5_determineStep.1 minimalThresholds 3000 4 (by norm_num) (by norm_num)
    (by norm_num [minimalThresholds]) (by decide)

/-- **C6**: `calculateHourlyRate` equals
`stepRates[determineStep hours] × (1 + annualRaiseRate)^years`; in
particular at 0 hours and year 0 it is exactly `stepRates[1]`, and at 0
hours and year n it is `stepRates[1] × (1 + annualRaiseRate)^n`
(compounding law; the first threshold is nonnegative, as in the
configured table). -/
theorem C6_hourlyRate :
    (∀ (ps : PayScale) (hours : ℚ) (n : ℕ),
        calculateHourlyRate ps hours n =
          ps.stepRates (determineStep ps.stepThresholds hours) *
            (1 + ps.annualRaiseRate) ^ n) ∧
    (∀ ps : PayScale, 0 ≤ ps.stepThresholds 1 →
        calculateHourlyRate ps 0 0 = ps.stepRates 1) ∧
    (∀ (ps : PayScale) (n : ℕ), 0 ≤ ps.stepThresholds 1 →
        calculateHourlyRate ps 0 n = ps.stepRates 1 * (1 + ps.annualRaiseRate) ^ n) := by
  refine ⟨fun ps hours n => rfl, ?_, ?_⟩
  · intro ps h
    simp [calculateHourlyRate, determineStep_zero ps.stepThresholds h]
  · intro ps n h
    simp [calculateHourlyRate, determineStep_zero ps.stepThresholds h]

/-- Witness for C6: the compounding law evaluated on the minimal pay scale. -/
theorem C6_witness :
    calculateHourlyRate minimalPayScale 0 3 =
      minimalPayScale.stepRates 1 * (1 + minimalPayScale.annualRaiseRate) ^ 3 :=
  C6_hourlyRate.2.2 minimalPayScale 3 (by norm_num [minimalPayScale, minimalThresholds])

/-- **C8**: `calculatePTOPayout` equals
`floor(annualHours / hoursPerPTOHour) × hourlyRate` for all inputs, and
with divisor 30, 800 annual hours and rate $31.50 the payout is
26 × 31.50 = 819.00. -/
theorem C8_ptoPayout :
    (∀ hoursPerPTOHour annualHours hourlyRate : ℚ,
        calculatePTOPayout hoursPerPTOHour annualHours hourlyRate =
          ((⌊annualHours / hoursPerPTOHour⌋ : ℤ) : ℚ) * hourlyRate) ∧
    calculatePTOPayout 30 800 (63/2) = 819 :=
  ⟨fun _ _ _ => rfl, by norm_num [calculatePTOPayout]⟩

/-- **C7**: with the Utah 2025 rules, the unemployment benefit never
exceeds `maxWeeklyBenefit × maxDurationWeeks = 777 × 26`, and the benefit
at zero earnings is 0. -/
theorem C7_unemployment_cap :
    (∀ c p : ℚ, 0 ≤ c → 0 ≤ p →
        calculateUnemploymentBenefits utah2025 c p ≤ 777 * 26) ∧
    calculateUnemploymentBenefits utah2025 0 0 = 0 := by
  constructor
  · intro c p _ _
    simp only [calculateUnemploymentBenefits, utah2025]
    split_ifs with h1 h2
    · norm_num
    · norm_num
    · push_neg at h2
      refine mul_le_mul (min_le_right _ _) (max_le (by norm_num) (min_le_left _ _))
        (le_trans (by norm_num) (le_max_left _ _)) (by norm_num)
  · norm_num [calculateUnemploymentBenefits, utah2025]

/-- Witness for C7: the cap holds at 20000/20000 earnings. -/
theorem C7_witness : calculateUnemploymentBenefits utah2025 20000 20000 ≤ 777 * 26 :=
  C7_unemployment_cap.1 20000 20000 (by norm_num) (by norm_num)

lemma utahWeekly_le (c p : ℚ) (hc : 0 ≤ c) (hp : 0 ≤ p) :
    min ((jsRound (max (c/4) (p/4) / 26 - 5) : ℚ)) 777 ≤ (c + p) / 104 - 9/2 := by
  have hmax : max (c/4) (p/4) ≤ (c + p) / 4 := max_le (by linarith) (by linarith)
  have hdiv : max (c/4) (p/4) / 26 ≤ ((c + p) / 4) / 26 :=
    (div_le_div_right (by norm_num)).mpr hmax
  have hround : (jsRound (max (c/4) (p/4) / 26 - 5) : ℚ) ≤
      max (c/4) (p/4) / 26 - 5 + 1/2 := Int.floor_le _
  calc min ((jsRound (max (c/4) (p/4) / 26 - 5) : ℚ)) 777
      ≤ (jsRound (max (c/4) (p/4) / 26 - 5) : ℚ) := min_le_left _ _
    _ ≤ max (c/4) (p/4) / 26 - 5 + 1/2 := hround
    _ ≤ ((c + p) / 4) / 26 - 9/2 := by linarith
    _ = (c + p) / 104 - 9/2 := by ring_nf

lemma utah_duration_26 (c p w : ℚ) (hbase : 5300 ≤ c + p) (hw : 0 < w)
    (hwle : w ≤ (c + p) / 104 - 9/2) :
    max (10:ℚ) (min 26 ((⌊(c + p) * (27/100) / w⌋ : ℤ) : ℚ)) = 26 := by
  have h26 : (26:ℚ) ≤ (c + p) * (27/100) / w := by
    rw [le_div_iff hw]
    linarith
  have hfloor : (26:ℤ) ≤ ⌊(c + p) * (27/100) / w⌋ :=
    Int.le_floor.mpr (by exact_mod_cast h26)
  rw [min_eq_left (by exact_mod_cast hfloor)]
  exact max_eq_right (by norm_num)

lemma utah_closed_form (c p : ℚ) (hc : 0 ≤ c) (hp : 0 ≤ p) :
    calculateUnemploymentBenefits utah2025 c p =
      if c + p < 5300 then 0
      else if min ((jsRound (max (c/4) (p/4) / 26 - 5) : ℚ)) 777 ≤ 0 then 0
      else min ((jsRound (max (c/4) (p/4) / 26 - 5) : ℚ)) 777 * 26 := by
  simp only [calculateUnemploymentBenefits, utah2025]
  have hq : ¬ (c + p < max (c/4) (p/4) * (3/2)) := by
    have h1 : max (c/4) (p/4) ≤ (c + p) / 4 := max_le (by linarith) (by linarith)
    push_neg
    nlinarith
  simp only [hq, or_false]
  split_ifs with h1 h2
  · rfl
  · rfl
  · push_neg at h2
    rw [utah_duration_26 c p _ (by linarith) h2 (utahWeekly_le c p hc hp)]

lemma utahWeekly_mono (p a b : ℚ) (hab : a ≤ b) :
    min ((jsRound (max (a/4) (p/4) / 26 - 5) : ℚ)) 777 ≤
      min ((jsRound (max (b/4) (p/4) / 26 - 5) : ℚ)) 777 := by
  refine min_le_min ?_ le_rfl
  have h1 : max (a/4) (p/4) ≤ max (b/4) (p/4) := max_le_max (by linarith) le_rfl
  have h2 : max (a/4) (p/4) / 26 ≤ max (b/4) (p/4) / 26 :=
    (div_le_div_right (by norm_num)).mpr h1
  have h3 : jsRound (max (a/4) (p/4) / 26 - 5) ≤ jsRound (max (b/4) (p/4) / 26 - 5) := by
    unfold jsRound
    exact Int.floor_le_floor (by linarith)
  exact_mod_cast h3

/-- **C4**: with the Utah 2025 rules, the unemployment benefit is
monotonically non-decreasing in current-year earnings: for fixed
prior-year earnings ≥ 0 and current-year earnings a ≤ b whose computed
weekly benefits stay at or below the weekly cap, the a-benefit is ≤ the
b-benefit. -/
theorem C4_unemployment_monotone :
    ∀ p a b : ℚ, 0 ≤ p → 0 ≤ a → a ≤ b →
      (jsRound (max (a/4) (p/4) / utah2025.weeksPerQuarter -
          utah2025.weeklyBenefitDeduction) : ℚ) ≤ utah2025.maxWeeklyBenefit →
      (jsRound (max (b/4) (p/4) / utah2025.weeksPerQuarter -
          utah2025.weeklyBenefitDeduction) : ℚ) ≤ utah2025.maxWeeklyBenefit →
      calculateUnemploymentBenefits utah2025 a p ≤
        calculateUnemploymentBenefits utah2025 b p := by
  intro p a b hp ha hab hcapa hcapb
  have hb : 0 ≤ b := le_trans ha hab
  rw [utah_closed_form a p ha hp, utah_closed_form b p hb hp]
  by_cases h1 : b + p < 5300
  · rw [if_pos (by linarith : a + p < 5300), if_pos h1]
  · rw [if_neg h1]
    have hw := utahWeekly_mono p a b hab
    by_cases h2 : a + p < 5300
    · rw [if_pos h2]
      split_ifs with h3
      · exact le_rfl
      · push_neg at h3
        exact mul_nonneg h3.le (by norm_num)
    · rw [if_neg h2]
      by_cases h3 : min ((jsRound (max (b/4) (p/4) / 26 - 5) : ℚ)) 777 ≤ 0
      · rw [if_pos h3, if_pos (le_trans hw h3)]
      · rw [if_neg h3]
        by_cases h4 : min ((jsRound (max (a/4) (p/4) / 26 - 5) : ℚ)) 777 ≤ 0
        · rw [if_pos h4]
          push_neg at h3
          exact mul_nonneg h3.le (by norm_num)
        · rw [if_neg h4]
          exact mul_le_mul_of_nonneg_right hw (by norm_num)

/-- Witness for C4: monotonicity at prior 10000, current 20000 ≤ 30000. -/
theorem C4_witness :
    calculateUnemploymentBenefits utah2025 20000 10000 ≤
      calculateUnemploymentBenefits utah2025 30000 10000 :=
  C4_unemployment_monotone 10000 20000 30000 (by norm_num) (by norm_num) (by norm_num)
    (by norm_num [jsRound, utah2025]) (by norm_num [jsRound, utah2025])

/-- Counterexample to **C3** as stated: with the shipped configuration,
income 60240 has `pctFPL = 400`, which is inside the inclusive range
`[100, 400]` (not strictly outside), yet the subsidy is 0 — so "returns 0
exactly when pctFPL lies strictly outside the range" fails in the
only-if direction. -/
theorem C3_counterexample :
    (0:ℚ) ≤ 60240 ∧
    minimalACA.minimumPercent ≤ (60240 / minimalACA.federalPovertyLevel) * 100 ∧
    (60240 / minimalACA.federalPovertyLevel) * 100 ≤ minimalACA.maximumPercent ∧
    calculateACASubsidy minimalACA 60240 = 0 := by
  refine ⟨by norm_num, by norm_num [minimalACA], by norm_num [minimalACA], ?_⟩
  norm_num [calculateACASubsidy, minimalACA]

/-- **C3 (amended)**: `calculateACASubsidy` returns 0 whenever `pctFPL`
is strictly outside the inclusive range `[minimumPercent, maximumPercent]`
and otherwise returns `max(0, benchmarkPremiumMonthly×12 −
income×applicableRate)` with the tiered rate of the specification (which
can itself be 0 for an in-range income); the result is never negative. -/
theorem C3_aca_amended :
    ∀ (aca : ACAConfig) (income : ℚ),
      calculateACASubsidy aca income = acaSubsidySpec aca income ∧
      0 ≤ calculateACASubsidy aca income := by
  intro aca income
  constructor
  · simp only [calculateACASubsidy, acaSubsidySpec]
    rw [show income / aca.federalPovertyLevel * 100 =
        100 * income / aca.federalPovertyLevel from by ring]
    split_ifs <;> first
      | rfl
      | (congr 1; ring)
  · simp only [calculateACASubsidy]
    split_ifs <;> first
      | exact le_rfl
      | exact le_max_left _ _

/-- Counterexample to **C1** as stated: in `fdSpill` (one year, shortfall
1000, grown cash 500, taxable 2000, zero returns) the transition year ends
with cash 0 but taxable 1000 — the taxable balance did **not** change only
by its investment-return growth (which would leave 2000): the full
shortfall was drawn from taxable in the same year. -/
theorem C1_counterexample :
    (calculateProjection minimalConfig fdSpill).map
        (fun r => (r.cashBalance, r.taxableBalance)) = [(0, 1000)] ∧
    fdSpill.taxableBalance * (1 + fdSpill.investmentReturn / 100) = 2000 ∧
    (1000 : ℚ) ≠ 2000 := by
  refine ⟨?_, by norm_num [fdSpill, zeroForm], by norm_num⟩
  norm_num [calculateProjection, projectFrom, projStep, yearIncome, liquidityStep,
    initState, calculateHourlyRate, determineStep, scanStep, calculateACASubsidy,
    calculateUnemploymentBenefits, calculatePTOPayout, jsRound, minimalConfig,
    minimalPayScale, minimalACA, utah2025, minimalThresholds, fdSpill, zeroForm]

/-- **C1 (amended)**: in the CashActive state, when a year's positive
shortfall exceeds the grown cash balance, cash is set to 0, the depletion
flag is set, and the **full** shortfall is additionally drawn from the
grown taxable balance within that same year (taxable is zeroed if it
cannot cover it). -/
theorem C1_transition_amended :
    ∀ (cashReturn investmentReturn shortfall contribution401k : ℚ) (s : PState),
      s.cashDepleted = false → s.taxableDepleted = false →
      0 < shortfall → s.cash * (1 + cashReturn / 100) < shortfall →
      (liquidityStep cashReturn investmentReturn shortfall contribution401k s).cash = 0 ∧
      (liquidityStep cashReturn investmentReturn shortfall contribution401k s).cashDepleted
        = true ∧
      (liquidityStep cashReturn investmentReturn shortfall contribution401k s).taxable =
        (if shortfall ≤ s.taxable * (1 + investmentReturn / 100)
         then s.taxable * (1 + investmentReturn / 100) - shortfall
         else 0) := by
  intro cr ir sf ck s hcd htd hsf hlt
  have h1 : ¬ (sf ≤ s.cash * (1 + cr / 100)) := not_le.mpr hlt
  refine ⟨?_, ?_, ?_⟩ <;>
    simp [liquidityStep, hcd, htd, hsf, h1, apply_ite (f := Prod.fst)]

/-- Witness for C1 (amended): cash 3, taxable 10, shortfall 5, zero rates. -/
theorem C1_witness :
    (liquidityStep 0 0 5 0 ⟨3, 10, 0, false, false, 0, 0⟩).cash = 0 ∧
    (liquidityStep 0 0 5 0 ⟨3, 10, 0, false, false, 0, 0⟩).cashDepleted = true ∧
    (liquidityStep 0 0 5 0 ⟨3, 10, 0, false, false, 0, 0⟩).taxable =
      (if (5:ℚ) ≤ 10 * (1 + 0 / 100) then 10 * (1 + 0 / 100) - 5 else 0) :=
  C1_transition_amended 0 0 5 0 ⟨3, 10, 0, false, false, 0, 0⟩ rfl rfl (by norm_num)
    (by norm_num)

/-- Counterexample to **C2** as stated: in `fdRefill` the first year's
ending cash is exactly 0 (the shortfall exactly equals grown cash, which
does not set the depletion flag), and the second year's surplus is added
back, ending at 2000 ≠ 0. -/
theorem C2_counterexample :
    (calculateProjection minimalConfig fdRefill).map (fun r => r.cashBalance) =
      [0, 2000] ∧
    (2000 : ℚ) ≠ 0 := by
  refine ⟨?_, by norm_num⟩
  norm_num [calculateProjection, projectFrom, projStep, yearIncome, liquidityStep,
    initState, calculateHourlyRate, determineStep, scanStep, calculateACASubsidy,
    calculateUnemploymentBenefits, calculatePTOPayout, jsRound, minimalConfig,
    minimalPayScale, minimalACA, utah2025, minimalThresholds, fdRefill, zeroForm]

lemma projStep_depleted (cfg : Config) (fd : FormDataR) (y : ℕ) (s : PState)
    (h : s.cashDepleted = true) :
    (projStep cfg fd y s).2.cashBalance = s.cash ∧
    (projStep cfg fd y s).1.cash = s.cash ∧
    (projStep cfg fd y s).1.cashDepleted = true := by
  refine ⟨?_, ?_, ?_⟩ <;> simp [projStep, liquidityStep, h]

/-- **C2 (amended)**: when the insufficient-cash branch fires (the
depletion flag turns on), ending cash is 0 that year, and from any state
with the flag set and cash 0 every subsequent row's ending cash is exactly
0 — but a year whose shortfall exactly equals grown cash leaves cash at 0
without setting the flag, and a later surplus is then added back. -/
theorem C2_sticky_amended :
    (∀ (cashReturn investmentReturn shortfall contribution401k : ℚ) (s : PState),
        s.cashDepleted = false →
        (liquidityStep cashReturn investmentReturn shortfall contribution401k s).cashDepleted
          = true →
        (liquidityStep cashReturn investmentReturn shortfall contribution401k s).cash = 0) ∧
    (∀ (cfg : Config) (fd : FormDataR) (n y : ℕ) (s : PState),
        s.cashDepleted = true → s.cash = 0 →
        ∀ r ∈ projectFrom cfg fd y n s, r.cashBalance = 0) := by
  constructor
  · intro cr ir sf ck s hcd hflag
    simp only [liquidityStep, hcd] at hflag ⊢
    split_ifs at hflag ⊢ <;> simp_all
  · intro cfg fd n
    induction n with
    | zero =>
      intro y s _ _ r hr
      simp [projectFrom] at hr
    | succ m ih =>
      intro y s hdep hzero r hr
      simp only [projectFrom] at hr
      rcases List.mem_cons.mp hr with h | h
      · subst h
        exact (projStep_depleted cfg fd y s hdep).1.trans hzero
      · exact ih (y + 1) (projStep cfg fd y s).1
          (projStep_depleted cfg fd y s hdep).2.2
          ((projStep_depleted cfg fd y s hdep).2.1.trans hzero) r h

/-- Witness for C2 (amended): the newly set flag comes with zero cash. -/
theorem C2_witness :
    (liquidityStep 0 0 5 0 ⟨3, 10, 0, false, false, 0, 0⟩).cash = 0 :=
  C2_sticky_amended.1 0 0 5 0 ⟨3, 10, 0, false, false, 0, 0⟩ rfl
    (by norm_num [liquidityStep])

lemma liquidityStep_retirement (cr ir sf ck : ℚ) (s : PState) :
    (liquidityStep cr ir sf ck s).retirement = s.retirement * (1 + ir / 100) + ck := rfl

lemma liquidityStep_cash_nonneg (cr ir sf ck : ℚ) (s : PState)
    (hcr : 0 ≤ 1 + cr / 100) (hc : 0 ≤ s.cash) :
    0 ≤ (liquidityStep cr ir sf ck s).cash := by
  have hgc : 0 ≤ s.cash * (1 + cr / 100) := mul_nonneg hc hcr
  have habs : 0 ≤ |sf| := abs_nonneg sf
  cases hcd : s.cashDepleted <;>
    simp only [liquidityStep, hcd] <;>
    split_ifs <;>
    first
      | exact hc
      | linarith
      | exact le_rfl

lemma liquidityStep_taxable_nonneg (cr ir sf ck : ℚ) (s : PState)
    (hir : 0 ≤ 1 + ir / 100) (ht : 0 ≤ s.taxable) :
    0 ≤ (liquidityStep cr ir sf ck s).taxable := by
  have hgt : 0 ≤ s.taxable * (1 + ir / 100) := mul_nonneg ht hir
  cases hcd : s.cashDepleted <;> cases htd : s.taxableDepleted <;>
    simp only [liquidityStep, hcd, htd] <;>
    split_ifs <;>
    first
      | exact ht
      | exact hgt
      | linarith
      | exact le_rfl

lemma yearIncome_nonneg (cfg : Config) (fd : FormDataR) (y : ℕ) (pw pi : ℚ)
    (hpw : 0 ≤ pw) (hsp : 0 ≤ fd.startingProfitSharing)
    (hpp : 0 ≤ fd.profitSharingPercent) (hah : 0 ≤ fd.annualHours)
    (hsr : ∀ k, 0 ≤ cfg.payScale.stepRates k)
    (hraise : 0 ≤ cfg.payScale.annualRaiseRate)
    (hcontr : 0 ≤ cfg.contributionRate) :
    0 ≤ (yearIncome cfg fd y pw pi).2.1 ∧ 0 ≤ (yearIncome cfg fd y pw pi).2.2.1 := by
  have hrate : 0 ≤ calculateHourlyRate cfg.payScale
      (fd.startingCareerHours + (y : ℚ) * fd.annualHours) y :=
    mul_nonneg (hsr _) (pow_nonneg (by linarith) y)
  have hw2 : 0 ≤ calculateHourlyRate cfg.payScale
      (fd.startingCareerHours + (y : ℚ) * fd.annualHours) y * fd.annualHours :=
    mul_nonneg hrate hah
  have hps : 0 ≤ (if y = 0 then fd.startingProfitSharing
      else pw * (fd.profitSharingPercent / 100)) := by
    split_ifs
    · exact hsp
    · exact mul_nonneg hpw (div_nonneg hpp (by norm_num))
  constructor
  · simp only [yearIncome]
    exact mul_nonneg hps hcontr
  · simp only [yearIncome]
    exact hw2

lemma projectFrom_nonneg (cfg : Config) (fd : FormDataR)
    (hcr : 0 ≤ fd.cashReturn) (hir : 0 ≤ fd.investmentReturn)
    (hcontr : 0 ≤ cfg.contributionRate) (hsp : 0 ≤ fd.startingProfitSharing)
    (hpp : 0 ≤ fd.profitSharingPercent) (hah : 0 ≤ fd.annualHours)
    (hsr : ∀ k, 0 ≤ cfg.payScale.stepRates k)
    (hraise : 0 ≤ cfg.payScale.annualRaiseRate) :
    ∀ (n y : ℕ) (s : PState), 0 ≤ s.cash → 0 ≤ s.taxable → 0 ≤ s.retirement →
      0 ≤ s.priorYearW2 →
      ∀ r ∈ projectFrom cfg fd y n s,
        0 ≤ r.cashBalance ∧ 0 ≤ r.taxableBalance ∧ 0 ≤ r.retirementBalance := by
  intro n
  induction n with
  | zero =>
    intro y s _ _ _ _ r hr
    simp [projectFrom] at hr
  | succ m ih =>
    intro y s hc ht hrt hpw r hr
    have hcr1 : 0 ≤ 1 + fd.cashReturn / 100 := by
      have := div_nonneg hcr (by norm_num : (0:ℚ) ≤ 100)
      linarith
    have hir1 : 0 ≤ 1 + fd.investmentReturn / 100 := by
      have := div_nonneg hir (by norm_num : (0:ℚ) ≤ 100)
      linarith
    have hinc := yearIncome_nonneg cfg fd y s.priorYearW2 s.priorYearIncome
      hpw hsp hpp hah hsr hraise hcontr
    have hliqc := liquidityStep_cash_nonneg fd.cashReturn fd.investmentReturn
      (yearIncome cfg fd y s.priorYearW2 s.priorYearIncome).1
      (yearIncome cfg fd y s.priorYearW2 s.priorYearIncome).2.1 s hcr1 hc
    have hliqt := liquidityStep_taxable_nonneg fd.cashReturn fd.investmentReturn
      (yearIncome cfg fd y s.priorYearW2 s.priorYearIncome).1
      (yearIncome cfg fd y s.priorYearW2 s.priorYearIncome).2.1 s hir1 ht
    have hliqr : 0 ≤ (liquidityStep fd.cashReturn fd.investmentReturn
        (yearIncome cfg fd y s.priorYearW2 s.priorYearIncome).1
        (yearIncome cfg fd y s.priorYearW2 s.priorYearIncome).2.1 s).retirement := by
      rw [liquidityStep_retirement]
      exact add_nonneg (mul_nonneg hrt hir1) hinc.1
    simp only [projectFrom] at hr
    rcases List.mem_cons.mp hr with h | h
    · subst h
      exact ⟨hliqc, hliqt, hliqr⟩
    · exact ih (y + 1) (projStep cfg fd y s).1 hliqc hliqt hliqr hinc.2 r h

/-- Counterexample to **C9** as stated: with nonnegative starting balances,
nonnegative return percentages and a nonnegative contribution rate, but a
negative starting profit-sharing amount, the single projected year ends
with retirement balance −100 < 0. -/
theorem C9_counterexample :
    0 ≤ fdNegPS.cashBalance ∧ 0 ≤ fdNegPS.taxableBalance ∧
    0 ≤ fdNegPS.retirementBalance ∧ 0 ≤ fdNegPS.cashReturn ∧
    0 ≤ fdNegPS.investmentReturn ∧ 0 ≤ cfgContrib.contributionRate ∧
    (calculateProjection cfgContrib fdNegPS).map (fun r => r.retirementBalance) =
      [-100] ∧
    ¬ (0 ≤ (-100 : ℚ)) := by
  refine ⟨by norm_num [fdNegPS, zeroForm], by norm_num [fdNegPS, zeroForm],
    by norm_num [fdNegPS, zeroForm], by norm_num [fdNegPS, zeroForm],
    by norm_num [fdNegPS, zeroForm], by norm_num [cfgContrib, minimalConfig],
    ?_, by norm_num⟩
  norm_num [calculateProjection, projectFrom, projStep, yearIncome, liquidityStep,
    initState, calculateHourlyRate, determineStep, scanStep, calculateACASubsidy,
    calculateUnemploymentBenefits, calculatePTOPayout, jsRound, cfgContrib,
    minimalConfig, minimalPayScale, minimalACA, utah2025, minimalThresholds,
    fdNegPS, zeroForm]

/-- **C9 (amended)**: if additionally the starting profit-sharing amount,
the profit-sharing percent, the annual hours, every step rate and the
annual raise rate are nonnegative, then every projected row's ending cash,
taxable and retirement balances are ≥ 0, in any state of the waterfall. -/
theorem C9_nonneg_amended :
    ∀ (cfg : Config) (fd : FormDataR),
      0 ≤ fd.cashBalance → 0 ≤ fd.taxableBalance → 0 ≤ fd.retirementBalance →
      0 ≤ fd.cashReturn → 0 ≤ fd.investmentReturn → 0 ≤ cfg.contributionRate →
      0 ≤ fd.startingProfitSharing → 0 ≤ fd.profitSharingPercent →
      0 ≤ fd.annualHours → (∀ k, 0 ≤ cfg.payScale.stepRates k) →
      0 ≤ cfg.payScale.annualRaiseRate →
      ∀ r ∈ calculateProjection cfg fd,
        0 ≤ r.cashBalance ∧ 0 ≤ r.taxableBalance ∧ 0 ≤ r.retirementBalance := by
  intro cfg fd h1 h2 h3 h4 h5 h6 h7 h8 h9 h10 h11
  exact projectFrom_nonneg cfg fd h4 h5 h6 h7 h8 h9 h10 h11
    (fd.endAge + 1 - fd.currentAge) 0 (initState fd) h1 h2 h3 le_rfl

/-- Witness for C9 (amended): the single row of the `fdSpill` run has
nonnegative balances. -/
theorem C9_witness :
    0 ≤ ({ age := 44, shortfall := 1000, cashBalance := 0, taxableBalance := 1000,
           retirementBalance := 0 } : Row).cashBalance ∧
    0 ≤ ({ age := 44, shortfall := 1000, cashBalance := 0, taxableBalance := 1000,
           retirementBalance := 0 } : Row).taxableBalance ∧
    0 ≤ ({ age := 44, shortfall := 1000, cashBalance := 0, taxableBalance := 1000,
           retirementBalance := 0 } : Row).retirementBalance := by
  have hlist : calculateProjection minimalConfig fdSpill =
      [{ age := 44, shortfall := 1000, cashBalance := 0, taxableBalance := 1000,
         retirementBalance := 0 }] := by
    norm_num [calculateProjection, projectFrom, projStep, yearIncome, liquidityStep,
      initState, calculateHourlyRate, determineStep, scanStep, calculateACASubsidy,
      calculateUnemploymentBenefits, calculatePTOPayout, jsRound, minimalConfig,
      minimalPayScale, minimalACA, utah2025, minimalThresholds, fdSpill, zeroForm]
  refine C9_nonneg_amended minimalConfig fdSpill (by norm_num [fdSpill, zeroForm])
    (by norm_num [fdSpill, zeroForm]) (by norm_num [fdSpill, zeroForm])
    (by norm_num [fdSpill, zeroForm]) (by norm_num [fdSpill, zeroForm])
    (by norm_num [minimalConfig]) (by norm_num [fdSpill, zeroForm])
    (by norm_num [fdSpill, zeroForm]) (by norm_num [fdSpill, zeroForm])
    (fun k => by norm_num [minimalConfig, minimalPayScale])
    (by norm_num [minimalConfig, minimalPayScale]) _ ?_
  rw [hlist]
  exact List.mem_singleton.mpr rfl

/-- Counterexample to **C10** as stated: a run starting at age 0 with all
fields 0 produces one row which is the first whose rounded cash balance
parses to ≤ 0, yet the reported cash-depletion age is `'Never'` (`none`)
rather than that row's age, because `results.find(...)?.age || 'Never'`
treats the age 0 as falsy. -/
theorem C10_counterexample :
    (calculateProjection minimalConfig (zeroForm 0 0)).find?
        (fun r => decide ((jsToFixed0 r.cashBalance : ℚ) ≤ 0)) =
      some { age := 0, shortfall := 0, cashBalance := 0, taxableBalance := 0,
             retirementBalance := 0 } ∧
    cashDepletedAge (calculateProjection minimalConfig (zeroForm 0 0)) = none := by
  have hlist : calculateProjection minimalConfig (zeroForm 0 0) =
      [{ age := 0, shortfall := 0, cashBalance := 0, taxableBalance := 0,
         retirementBalance := 0 }] := by
    norm_num [calculateProjection, projectFrom, projStep, yearIncome, liquidityStep,
      initState, calculateHourlyRate, determineStep, scanStep, calculateACASubsidy,
      calculateUnemploymentBenefits, calculatePTOPayout, jsRound, minimalConfig,
      minimalPayScale, minimalACA, utah2025, minimalThresholds, zeroForm]
  rw [cashDepletedAge, hlist]
  constructor
  · norm_num [List.find?, jsToFixed0]
  · norm_num [List.find?, jsToFixed0]

/-- **C10 (amended)**: the summary's depletion ages are computed from the
rounded (`toFixed(0)`) balances: the reported age is the age of the first
row whose rounded balance parses to ≤ 0, provided that age is nonzero (an
age of 0 is reported as `'Never'` by the JS `|| 'Never'` fallback); in
particular a strictly positive exact ending cash balance below $0.50
(here $0.25) causes its year to be reported as the cash-depletion age. -/
theorem C10_rounding_amended :
    (∀ (rows : List Row) (r : Row),
        rows.find? (fun x => decide ((jsToFixed0 x.cashBalance : ℚ) ≤ 0)) = some r →
        r.age ≠ 0 → cashDepletedAge rows = some r.age) ∧
    (∀ (rows : List Row) (r : Row),
        rows.find? (fun x => decide ((jsToFixed0 x.taxableBalance : ℚ) ≤ 0)) = some r →
        r.age ≠ 0 → taxableDepletedAge rows = some r.age) ∧
    ((calculateProjection minimalConfig fdPenny).map (fun r => r.cashBalance) =
        [1/4] ∧
      (0:ℚ) < 1/4 ∧
      cashDepletedAge (calculateProjection minimalConfig fdPenny) = some 44) := by
  have hlist : calculateProjection minimalConfig fdPenny =
      [{ age := 44, shortfall := 1000, cashBalance := 1/4, taxableBalance := 0,
         retirementBalance := 0 }] := by
    norm_num [calculateProjection, projectFrom, projStep, yearIncome, liquidityStep,
      initState, calculateHourlyRate, determineStep, scanStep, calculateACASubsidy,
      calculateUnemploymentBenefits, calculatePTOPayout, jsRound, minimalConfig,
      minimalPayScale, minimalACA, utah2025, minimalThresholds, fdPenny, zeroForm]
  refine ⟨?_, ?_, ?_, by norm_num, ?_⟩
  · intro rows r hfind hage
    simp only [cashDepletedAge, hfind]
    simp [hage]
  · intro rows r hfind hage
    simp only [taxableDepletedAge, hfind]
    simp [hage]
  · rw [hlist]
    norm_num
  · rw [cashDepletedAge, hlist]
    norm_num [List.find?, jsToFixed0]

/-- Witness for C10 (amended): a singleton row list with age 7 and cash 0
reports age 7 as the cash-depletion age. -/
theorem C10_witness :
    cashDepletedAge [({ age := 7, shortfall := 0, cashBalance := 0,
                        taxableBalance := 0, retirementBalance := 0 } : Row)] = some 7 :=
  C10_rounding_amended.1
    [({ age := 7, shortfall := 0, cashBalance := 0,
        taxableBalance := 0, retirementBalance := 0 } : Row)]
    ({ age := 7, shortfall := 0, cashBalance := 0,
       taxableBalance := 0, retirementBalance := 0 } : Row)
    (by norm_num [List.find?, jsToFixed0]) (by norm_num)
